import Mathlib

/-!
Shallow embedding of the sales/auth core of the `week5_final_report` Flask
application (files `app/sales.py`, `app/user_auth.py`).

The SQLite database is modelled as explicit state (`DB`): the tables the
sales handlers touch are lists of rows, and the autoincrement row-id
counters are explicit.  Python's `with get_database() as db:` block commits
the connection when the block is left without a propagating exception —
including on an early `return` and on a `return` from an `except` clause —
so every path of the handlers below threads the (committed) state through
and returns it.  A failed INSERT itself writes nothing, but the rows
inserted before it stay.

Python truthiness (`if not x:`) on optional integers treats both `None`
and `0` as absent; on optional strings it treats `None` and `""` as
absent.  A parsed JSON body is `Option`-wrapped: `none` stands for a
falsy `request.get_json` result (`null` or the empty object `{}`), which
line 90 answers with its own 400.  Foreign keys are NOT enforced:
`get_database()` opens a bare `sqlite3.connect` and never issues
`PRAGMA foreign_keys` (sqlite's default is off), so inserts referencing
unknown customers or products succeed and are committed as dangling
references; the `except sqlite3.IntegrityError` classification of
`create_sale` (embedded below as `handle_sale_exc`) is consequently
unreachable for foreign-key violations.
-/

namespace SalesSys

/-- Row of the `sales` table: `INSERT INTO sales (customer_id, user_id)`. -/
structure SaleRow where
  id : Nat
  customer_id : Int
  user_id : Int
deriving Repr, DecidableEq

/-- Row of the `inventory_logs` table:
`INSERT INTO inventory_logs (type, product_id, delta, note)`. -/
structure LogRow where
  id : Nat
  type : String
  product_id : Int
  delta : Int
  note : String
deriving Repr, DecidableEq

/-- Row of the `sales_details` table:
`INSERT INTO sales_details (subtotal_cents, sale_id, log_id, note)`. -/
structure DetailRow where
  id : Nat
  sale_id : Nat
  log_id : Option Nat
  subtotal_cents : Int
  note : Option String
deriving Repr, DecidableEq

/-- The database state visible to the sales handlers.  `customers` and
`products` hold the existing primary keys that foreign keys may point to;
the `next*` fields are the autoincrement counters of the three tables the
handlers insert into. -/
structure DB where
  customers : List Int
  products : List Int
  sales : List SaleRow
  logs : List LogRow
  sales_details : List DetailRow
  nextSaleId : Nat
  nextLogId : Nat
  nextDetailId : Nat
deriving Repr, DecidableEq

/-- An HTTP JSON response: status code, `message` field, optional `id`
field (`create_sale` returns `{"message": ..., "id": sale_id}`). -/
structure Response where
  status : Nat
  message : String
  id : Option Nat := none
deriving Repr, DecidableEq

/-- Python truthiness of an optional integer field read with
`data.get(...)`: `None` and `0` are both falsy. -/
def truthyInt : Option Int → Bool
  | none => false
  | some v => v != 0

/-- Python truthiness of an optional string field: `None` and `""` are
both falsy. -/
def truthyStr : Option String → Bool
  | none => false
  | some s => s != ""

/-- Python `f"{note}"` rendering of an optional string (`None` prints as
`"None"`). -/
def pyShow : Option String → String
  | none => "None"
  | some s => s

/-- Lower-casing of an ASCII message, `msg.lower()` in the handler. -/
def strLower (s : String) : String := ⟨s.data.map Char.toLower⟩

/-- Character-list scan behind `strHas`: does `sub` occur contiguously? -/
def listHas (sub : List Char) : List Char → Bool
  | [] => sub.isEmpty
  | c :: rest => sub.isPrefixOf (c :: rest) || listHas sub rest

/-- Python's `sub in msg` substring test. -/
def strHas (s sub : String) : Bool := listHas sub.data s.data

/-- An exception escaping a `db.execute` call: either a
`sqlite3.IntegrityError` carrying its message, or any other exception. -/
inductive DbExc where
  | integrity (msg : String)
  | other (msg : String)
deriving Repr, DecidableEq

/-- The `except` clauses of `create_sale` (sales.py lines 164-174): an
IntegrityError message is lower-cased and classified by which column name
it mentions (`customer_id` first, then `product_id`), each giving a
domain-specific 400; any other IntegrityError gives a generic 400; any
other exception returns 500 with `f"Server error: {str(exc)}"`.  In this
program no foreign-key IntegrityError can arise (enforcement is off), and
the message sqlite would raise with enforcement on is the column-free
"FOREIGN KEY constraint failed", which neither substring test matches. -/
def handle_sale_exc : DbExc → Response
  | .integrity msg =>
    let m := strLower msg
    if strHas m "customer_id" then ⟨400, "Customer does not exist!", none⟩
    else if strHas m "product_id" then ⟨400, "Product does not exist!", none⟩
    else ⟨400, "Invalid input or constraint violation!", none⟩
  | .other msg => ⟨500, "Server error: " ++ msg, none⟩

/-- One line of the request's `details` list; each field is read with
`item.get(...)` and so may be absent. -/
structure SaleItem where
  product_id : Option Int
  quantity : Option Int
  subtotal_cents : Option Int
  note : Option String
deriving Repr, DecidableEq

/-- The JSON body of `POST /api/sales`. -/
structure SaleRequest where
  customer_id : Option Int
  details : Option (List SaleItem)
deriving Repr, DecidableEq

/-- The `for item in details:` loop of `create_sale` (sales.py lines
128-163), threading the connection state.  Each iteration: reject a falsy
`subtotal_cents`; if `product_id` is truthy, reject a falsy `quantity`,
then insert an inventory log with `delta = -quantity` — the insert
succeeds whatever the `product_id`, since foreign keys are unenforced;
finally insert the detail row with the captured log id (or null).  An
empty remainder returns the 201 response of line 176. -/
def insertItems (sale_id : Nat) : List SaleItem → DB → Response × DB
  | [], db => (⟨201, "Sale has been created.", some sale_id⟩, db)
  | item :: rest, db =>
    if ¬ truthyInt item.subtotal_cents then
      (⟨400, "Each detail requires a subtotal!", none⟩, db)
    else
      let subtotal := item.subtotal_cents.getD 0
      if truthyInt item.product_id then
        if ¬ truthyInt item.quantity then
          (⟨400, "Each detail that contains inventory change must have a quantity!", none⟩, db)
        else
          let p := item.product_id.getD 0
          let q := item.quantity.getD 0
          let log : LogRow :=
            ⟨db.nextLogId, "s", p, -q,
              "Automatic logging from sale #" ++ toString sale_id ++ ": " ++ pyShow item.note⟩
          let db1 : DB :=
            { db with logs := db.logs ++ [log], nextLogId := db.nextLogId + 1 }
          let d : DetailRow := ⟨db1.nextDetailId, sale_id, some log.id, subtotal, item.note⟩
          let db2 : DB :=
            { db1 with sales_details := db1.sales_details ++ [d],
                       nextDetailId := db1.nextDetailId + 1 }
          insertItems sale_id rest db2
      else
        let d : DetailRow := ⟨db.nextDetailId, sale_id, none, subtotal, item.note⟩
        let db1 : DB :=
          { db with sales_details := db.sales_details ++ [d],
                    nextDetailId := db.nextDetailId + 1 }
        insertItems sale_id rest db1

/-- `POST /api/sales` handler (`create_sale`, sales.py lines 87-176).
`data` is the parsed JSON body, `none` when `request.get_json` gave a
falsy value (line 90); `user_id` is the identity already resolved from
the session or the token table (lines 101-111).  The handler rejects a
falsy body, a falsy `customer_id`, a missing / empty `details` list, and
a falsy resolved user (401), then inserts the sale header and runs the
detail loop.  The header insert is not guarded by foreign keys — an
unknown `customer_id` is committed as a dangling reference. -/
def create_sale (db : DB) (data : Option SaleRequest) (user_id : Option Int) :
    Response × DB :=
  match data with
  | none => (⟨400, "A JSON body is required!", none⟩, db)
  | some req =>
    if ¬ truthyInt req.customer_id then
      (⟨400, "A customer is required!", none⟩, db)
    else
      match req.details with
      | none => (⟨400, "A non-empty list of details is required!", none⟩, db)
      | some [] => (⟨400, "A non-empty list of details is required!", none⟩, db)
      | some items =>
        if ¬ truthyInt user_id then
          (⟨401, "User authentication failed.", none⟩, db)
        else
          let sale_id := db.nextSaleId
          let db1 : DB :=
            { db with
              sales := db.sales ++ [⟨sale_id, req.customer_id.getD 0, user_id.getD 0⟩],
              nextSaleId := db.nextSaleId + 1 }
          insertItems sale_id items db1

/-- `DELETE /api/sales/<id>` handler (`delete_sale`, sales.py lines
222-262): collect the non-null `log_id`s of the sale's details, delete
those logs, delete the details, delete the header, and return 404 exactly
when the header delete reports `rowcount == 0`.  All deletes run before
the rowcount check, and both returns leave the `with` block normally, so
the (possibly empty) deletions are committed either way. -/
def delete_sale (db : DB) (sale_id : Nat) : Response × DB :=
  let rows := db.sales_details.filter (fun d => d.sale_id == sale_id)
  let log_ids : List Nat := rows.filterMap (fun d => d.log_id)
  let db1 : DB :=
    if log_ids.isEmpty then db
    else { db with logs := db.logs.filter (fun l => !log_ids.contains l.id) }
  let db2 : DB :=
    { db1 with sales_details := db1.sales_details.filter (fun d => d.sale_id != sale_id) }
  let rowcount := (db2.sales.filter (fun s => s.id == sale_id)).length
  let db3 : DB := { db2 with sales := db2.sales.filter (fun s => s.id != sale_id) }
  if rowcount == 0 then (⟨404, "Sale is not found!", none⟩, db3)
  else (⟨200, "Sale has been deleted.", none⟩, db3)

/-- One row of the detail query of `get_sale` (sales.py lines 62-73):
`LEFT JOIN inventory_logs il ON sd.log_id = il.id` with
`-il.delta AS quantity` — a null `log_id` (or a dangling one) leaves
`product_id` and `quantity` null. -/
structure DetailView where
  subtotal_cents : Int
  log_id : Option Nat
  note : Option String
  product_id : Option Int
  quantity : Option Int
deriving Repr, DecidableEq

/-- The JSON object returned by `GET /api/sales/<id>` (header fields plus
the detail rows; the product name/price columns of the join carry no
information the model tracks and are omitted). -/
structure SaleView where
  id : Nat
  customer_id : Int
  user_id : Int
  details : List DetailView
deriving Repr, DecidableEq

/-- The `LEFT JOIN` of one detail row against `inventory_logs`. -/
def detailView (logs : List LogRow) (d : DetailRow) : DetailView :=
  match d.log_id with
  | none => ⟨d.subtotal_cents, none, d.note, none, none⟩
  | some lid =>
    match logs.find? (fun l => l.id == lid) with
    | none => ⟨d.subtotal_cents, some lid, d.note, none, none⟩
    | some l => ⟨d.subtotal_cents, some lid, d.note, some l.product_id, some (-l.delta)⟩

/-- `GET /api/sales/<id>` handler (`get_sale`, sales.py lines 48-82):
`none` is the 404 case.  Rows are stored in insertion order, which for the
autoincremented ids coincides with the query's `ORDER BY sd.id`. -/
def get_sale (db : DB) (sale_id : Nat) : Option SaleView :=
  match db.sales.find? (fun s => s.id == sale_id) with
  | none => none
  | some head =>
    some ⟨head.id, head.customer_id, head.user_id,
      (db.sales_details.filter (fun d => d.sale_id == sale_id)).map (detailView db.logs)⟩

/-- A role string of the `users` table: viewer `r`, writer `w`, admin `a`,
disabled `d` (user_auth.py matches exactly these four; any other value
trips the `assert False`). -/
inductive Role where
  | r | w | a | d
deriving Repr, DecidableEq

/-- A required access level passed to `privileged(access)`; the decorator
asserts `access in {"r", "w", "a"}`. -/
inductive Access where
  | r | w | a
deriving Repr, DecidableEq

/-- The identity dictionary kept in the session and in `active_tokens`
(`{"id": ..., "username": ..., "role": ...}`). -/
structure UserData where
  id : Int
  username : String
  role : Role
deriving Repr, DecidableEq

/-- A row of the `users` table as `login` selects it. -/
structure DbUser where
  id : Int
  username : String
  password_hash : String
  role : Role
deriving Repr, DecidableEq

/-- The process-wide authentication state: the Flask session (modelled as
the identity it stores, if any) and the module-level `active_tokens`
dictionary (an association list with distinct keys). -/
structure AuthState where
  session : Option UserData
  active_tokens : List (String × UserData)
deriving Repr, DecidableEq

/-- Python `active_tokens[token]` lookup. -/
def tokenLookup (ts : List (String × UserData)) (k : String) : Option UserData :=
  (ts.find? (fun p => p.1 == k)).map (fun p => p.2)

/-- Python `active_tokens[token] = user` dictionary assignment: replace
the binding if the key exists, otherwise append it. -/
def tokensInsert (ts : List (String × UserData)) (k : String) (v : UserData) :
    List (String × UserData) :=
  if ts.any (fun p => p.1 == k) then
    ts.map (fun p => if p.1 == k then (k, v) else p)
  else ts ++ [(k, v)]

/-- The caller-identity resolution shared by `get_current_user`
(user_auth.py lines 32-51) and the `privileged` wrapper (lines 62-77):
the session first, then the bearer token of the `Authorization` header
(already parsed out of `"Bearer <token>"` here). -/
def resolve_user (st : AuthState) (bearer : Option String) : Option UserData :=
  match st.session with
  | some u => some u
  | none =>
    match bearer with
    | some t => tokenLookup st.active_tokens t
    | none => none

/-- Result of `GET /api/me`: the identity dictionary, or the 401 body. -/
inductive MeResult where
  | ok (u : UserData)
  | err (resp : Response)
deriving Repr, DecidableEq

/-- `GET /api/me` handler (`get_current_user`, user_auth.py lines 32-53). -/
def get_current_user (st : AuthState) (bearer : Option String) : MeResult :=
  match resolve_user st bearer with
  | some u => .ok u
  | none => .err ⟨401, "You have not been authenticated.", none⟩

/-- The role check of the `privileged(access)` decorator (user_auth.py
lines 79-97) after the identity is resolved: `none` means the wrapped
handler runs; `some resp` is the early 401/403 response.  `d` is always
denied, `r` satisfies only `r`, `w` satisfies `r` and `w`, `a` passes. -/
def privileged_check (access : Access) (user : Option UserData) : Option Response :=
  match user with
  | none => some ⟨401, "You are not authorized.", none⟩
  | some u =>
    match u.role with
    | .d => some ⟨403, "Your authorization was revoked.", none⟩
    | .r =>
      if access == .r then none
      else some ⟨403, "You may not perform this operation.", none⟩
    | .w =>
      if access == .r || access == .w then none
      else some ⟨403, "You may not perform this operation.", none⟩
    | .a => none

/-- The whole decorator: resolve the caller, then check the role. -/
def privileged_gate (access : Access) (st : AuthState) (bearer : Option String) :
    Option Response :=
  privileged_check access (resolve_user st bearer)

/-- Role floor of `GET /api/sales` and `GET /api/sales/<id>`
(`@privileged("r")`). -/
def sales_read_floor : Access := .r

/-- Role floor of `POST /api/sales` (`@privileged("w")`). -/
def sales_create_floor : Access := .w

/-- Role floor of `PATCH /api/sales/<id>` (`@privileged("w")`). -/
def sales_update_floor : Access := .w

/-- Role floor of `DELETE /api/sales/<id>` (`@privileged("a")`). -/
def sales_delete_floor : Access := .a

/-- The body of a `POST /api/login` response: `message`, plus `user` and
`token` fields on success. -/
structure LoginResponse where
  status : Nat
  message : String
  user : Option UserData := none
  token : Option String := none
deriving Repr, DecidableEq

/-- `POST /api/login` handler (`login`, user_auth.py lines 104-152).
`chk` is `bcrypt.check_password_hash` (an external collaborator, passed
in); `freshToken` is the value `secrets.token_urlsafe(32)` happens to
produce.  Unknown username and hash mismatch share one 401 branch;
success clears and refills the session and records the token in
`active_tokens`. -/
def login (chk : String → String → Bool) (users : List DbUser) (st : AuthState)
    (username password : Option String) (freshToken : String) :
    LoginResponse × AuthState :=
  if ¬ truthyStr username then (⟨400, "A username is required!", none, none⟩, st)
  else if ¬ truthyStr password then (⟨400, "A password is required!", none, none⟩, st)
  else
    let un := username.getD ""
    let pw := password.getD ""
    match users.find? (fun u => u.username == un) with
    | none => (⟨401, "Invalid credentials!", none, none⟩, st)
    | some u =>
      if ¬ chk u.password_hash pw then
        (⟨401, "Invalid credentials!", none, none⟩, st)
      else
        let ud : UserData := ⟨u.id, u.username, u.role⟩
        (⟨200, "Logged in.", some ud, some freshToken⟩,
         ⟨some ud, tokensInsert st.active_tokens freshToken ud⟩)

/-- `POST /api/logout` handler (`logout`, user_auth.py lines 155-157):
`session.clear()` and nothing else — `active_tokens` is untouched. -/
def logout (st : AuthState) : Response × AuthState :=
  (⟨200, "Logged out.", none⟩, { st with session := none })

/-! ## Shared helper lemmas -/

theorem tokenLookup_insert (ts : List (String × UserData)) (k : String) (v : UserData) :
    tokenLookup (tokensInsert ts k v) k = some v := by
  induction ts with
  | nil => simp [tokensInsert, tokenLookup]
  | cons p rest ih =>
    cases hb : (p.1 == k) with
    | true =>
      have hpk : p.1 = k := by simpa using hb
      simp [tokensInsert, tokenLookup, List.any_cons, hb, hpk, List.find?_cons]
    | false =>
      have hne : ¬ p.1 = k := by simpa using hb
      by_cases hr : rest.any (fun q => q.1 == k)
      · have e1 : tokensInsert (p :: rest) k v =
            p :: rest.map (fun q => if q.1 == k then (k, v) else q) := by
          simp [tokensInsert, List.any_cons, hb, hr, hne]
        have e2 : tokensInsert rest k v =
            rest.map (fun q => if q.1 == k then (k, v) else q) := by
          simp [tokensInsert, hr]
        rw [e1]
        rw [e2] at ih
        simpa [tokenLookup, List.find?_cons, hb] using ih
      · have e1 : tokensInsert (p :: rest) k v = p :: (rest ++ [(k, v)]) := by
          simp [tokensInsert, List.any_cons, hb, hr]
        have e2 : tokensInsert rest k v = rest ++ [(k, v)] := by
          simp [tokensInsert, hr]
        rw [e1]
        rw [e2] at ih
        simpa [tokenLookup, List.find?_cons, hb] using ih

/-! ## C5: the ordered capability check of `privileged` -/

/-- C5: authorization on every gated endpoint follows the ordered
capability check — an unresolvable identity is answered 401; role `d` is
always denied 403; role `r` satisfies exactly `r`-level operations; role
`w` satisfies exactly `r`- and `w`-level ones; role `a` satisfies
everything.  For the sales endpoints (read=`r`, create/update=`w`,
delete=`a`): `r` is 403 on create/update/delete, `w` is 403 only on
delete, `a` passes everywhere, `d` is 403 everywhere. -/
theorem privileged_capability (st : AuthState) (b : Option String) (acc : Access)
    (u : UserData) :
    (resolve_user st b = none →
      privileged_gate acc st b = some ⟨401, "You are not authorized.", none⟩) ∧
    (u.role = .d →
      privileged_check acc (some u) = some ⟨403, "Your authorization was revoked.", none⟩) ∧
    (u.role = .r → (privileged_check acc (some u) = none ↔ acc = .r)) ∧
    (u.role = .w → (privileged_check acc (some u) = none ↔ acc = .r ∨ acc = .w)) ∧
    (u.role = .a → privileged_check acc (some u) = none) ∧
    (u.role = .r →
      privileged_check sales_read_floor (some u) = none ∧
      (∃ resp, privileged_check sales_create_floor (some u) = some resp ∧ resp.status = 403) ∧
      (∃ resp, privileged_check sales_update_floor (some u) = some resp ∧ resp.status = 403) ∧
      (∃ resp, privileged_check sales_delete_floor (some u) = some resp ∧ resp.status = 403)) ∧
    (u.role = .w →
      privileged_check sales_read_floor (some u) = none ∧
      privileged_check sales_create_floor (some u) = none ∧
      privileged_check sales_update_floor (some u) = none ∧
      (∃ resp, privileged_check sales_delete_floor (some u) = some resp ∧ resp.status = 403)) ∧
    (u.role = .d → ∀ acc2,
      ∃ resp, privileged_check acc2 (some u) = some resp ∧ resp.status = 403) := by
  obtain ⟨uid, un, ur⟩ := u
  refine ⟨?_, ?_, ?_, ?_, ?_, ?_, ?_, ?_⟩ <;> intro h
  · simp [privileged_gate, h, privileged_check]
  all_goals simp only at h
  all_goals subst h
  · cases acc <;> simp [privileged_check]
  · cases acc <;> simp [privileged_check]
  · cases acc <;> simp [privileged_check]
  · cases acc <;> simp [privileged_check]
  · exact ⟨rfl, ⟨_, rfl, rfl⟩, ⟨_, rfl, rfl⟩, ⟨_, rfl, rfl⟩⟩
  · exact ⟨rfl, rfl, rfl, ⟨_, rfl, rfl⟩⟩
  · intro acc2; cases acc2 <;> exact ⟨_, rfl, rfl⟩

/-- Closed instance of `privileged_capability`: the anonymous caller is
401, a writer may create but not delete, a disabled admin-level request is
403. -/
theorem privileged_capability_witness :
    (resolve_user ⟨none, []⟩ none = none →
      privileged_gate sales_create_floor ⟨none, []⟩ none =
        some ⟨401, "You are not authorized.", none⟩) ∧
    ((⟨2, "peri", Role.w⟩ : UserData).role = .d →
      privileged_check sales_create_floor (some ⟨2, "peri", Role.w⟩) =
        some ⟨403, "Your authorization was revoked.", none⟩) ∧
    ((⟨2, "peri", Role.w⟩ : UserData).role = .r →
      (privileged_check sales_create_floor (some ⟨2, "peri", Role.w⟩) = none ↔
        sales_create_floor = .r)) ∧
    ((⟨2, "peri", Role.w⟩ : UserData).role = .w →
      (privileged_check sales_create_floor (some ⟨2, "peri", Role.w⟩) = none ↔
        sales_create_floor = .r ∨ sales_create_floor = .w)) ∧
    ((⟨2, "peri", Role.w⟩ : UserData).role = .a →
      privileged_check sales_create_floor (some ⟨2, "peri", Role.w⟩) = none) ∧
    ((⟨2, "peri", Role.w⟩ : UserData).role = .r →
      privileged_check sales_read_floor (some ⟨2, "peri", Role.w⟩) = none ∧
      (∃ resp, privileged_check sales_create_floor (some ⟨2, "peri", Role.w⟩) = some resp ∧
        resp.status = 403) ∧
      (∃ resp, privileged_check sales_update_floor (some ⟨2, "peri", Role.w⟩) = some resp ∧
        resp.status = 403) ∧
      (∃ resp, privileged_check sales_delete_floor (some ⟨2, "peri", Role.w⟩) = some resp ∧
        resp.status = 403)) ∧
    ((⟨2, "peri", Role.w⟩ : UserData).role = .w →
      privileged_check sales_read_floor (some ⟨2, "peri", Role.w⟩) = none ∧
      privileged_check sales_create_floor (some ⟨2, "peri", Role.w⟩) = none ∧
      privileged_check sales_update_floor (some ⟨2, "peri", Role.w⟩) = none ∧
      (∃ resp, privileged_check sales_delete_floor (some ⟨2, "peri", Role.w⟩) = some resp ∧
        resp.status = 403)) ∧
    ((⟨2, "peri", Role.w⟩ : UserData).role = .d → ∀ acc2,
      ∃ resp, privileged_check acc2 (some ⟨2, "peri", Role.w⟩) = some resp ∧
        resp.status = 403) :=
  privileged_capability ⟨none, []⟩ none sales_create_floor ⟨2, "peri", Role.w⟩

/-! ## C7: login failure indistinguishability, token issuance -/

/-- C7: unknown username and password-hash mismatch produce the same
observable result — the literal `(401, "Invalid credentials!")` response
with the state (in particular `active_tokens`) unchanged — so the caller
cannot tell which occurred and no token is recorded; a successful login
returns a token that afterwards resolves (and authenticates `GET
/api/me`) to that user's identity. -/
theorem login_observable_contract (chk : String → String → Bool)
    (users : List DbUser) (st : AuthState) (un pw : Option String) (tok : String) :
    (truthyStr un = true → truthyStr pw = true →
      users.find? (fun x => x.username == un.getD "") = none →
      login chk users st un pw tok = (⟨401, "Invalid credentials!", none, none⟩, st)) ∧
    (∀ u, truthyStr un = true → truthyStr pw = true →
      users.find? (fun x => x.username == un.getD "") = some u →
      chk u.password_hash (pw.getD "") = false →
      login chk users st un pw tok = (⟨401, "Invalid credentials!", none, none⟩, st)) ∧
    (∀ u, truthyStr un = true → truthyStr pw = true →
      users.find? (fun x => x.username == un.getD "") = some u →
      chk u.password_hash (pw.getD "") = true →
      (login chk users st un pw tok).1.status = 200 ∧
      (login chk users st un pw tok).1.token = some tok ∧
      tokenLookup (login chk users st un pw tok).2.active_tokens tok =
        some ⟨u.id, u.username, u.role⟩ ∧
      get_current_user (login chk users st un pw tok).2 (some tok) =
        .ok ⟨u.id, u.username, u.role⟩) := by
  refine ⟨?_, ?_, ?_⟩
  · intro hu hp hf
    simp [login, hu, hp, hf]
  · intro u hu hp hf hc
    simp [login, hu, hp, hf, hc]
  · intro u hu hp hf hc
    have hlogin : login chk users st un pw tok =
        (⟨200, "Logged in.", some ⟨u.id, u.username, u.role⟩, some tok⟩,
         ⟨some ⟨u.id, u.username, u.role⟩,
          tokensInsert st.active_tokens tok ⟨u.id, u.username, u.role⟩⟩) := by
      simp [login, hu, hp, hf, hc]
    rw [hlogin]
    exact ⟨rfl, rfl, tokenLookup_insert _ _ _, rfl⟩

/-- Closed instance of `login_observable_contract`: one concrete user
table, an unknown-username attempt, a wrong-password attempt, and a
successful login whose token then resolves to the admin identity. -/
theorem login_observable_contract_witness :
    login (fun h p => h == p) [⟨1, "admin", "secret", Role.a⟩] ⟨none, []⟩
        (some "ghost") (some "x") "tok1" =
      (⟨401, "Invalid credentials!", none, none⟩, ⟨none, []⟩) ∧
    login (fun h p => h == p) [⟨1, "admin", "secret", Role.a⟩] ⟨none, []⟩
        (some "admin") (some "wrong") "tok1" =
      (⟨401, "Invalid credentials!", none, none⟩, ⟨none, []⟩) ∧
    ((login (fun h p => h == p) [⟨1, "admin", "secret", Role.a⟩] ⟨none, []⟩
        (some "admin") (some "secret") "tok1").1.status = 200 ∧
      (login (fun h p => h == p) [⟨1, "admin", "secret", Role.a⟩] ⟨none, []⟩
        (some "admin") (some "secret") "tok1").1.token = some "tok1" ∧
      tokenLookup (login (fun h p => h == p) [⟨1, "admin", "secret", Role.a⟩] ⟨none, []⟩
        (some "admin") (some "secret") "tok1").2.active_tokens "tok1" =
        some ⟨1, "admin", Role.a⟩ ∧
      get_current_user (login (fun h p => h == p) [⟨1, "admin", "secret", Role.a⟩] ⟨none, []⟩
        (some "admin") (some "secret") "tok1").2 (some "tok1") =
        .ok ⟨1, "admin", Role.a⟩) := by
  refine ⟨?_, ?_, ?_⟩
  · exact (login_observable_contract (fun h p => h == p) [⟨1, "admin", "secret", Role.a⟩]
      ⟨none, []⟩ (some "ghost") (some "x") "tok1").1 (by decide) (by decide) (by decide)
  · exact (login_observable_contract (fun h p => h == p) [⟨1, "admin", "secret", Role.a⟩]
      ⟨none, []⟩ (some "admin") (some "wrong") "tok1").2.1 ⟨1, "admin", "secret", Role.a⟩
      (by decide) (by decide) (by decide) (by decide)
  · exact (login_observable_contract (fun h p => h == p) [⟨1, "admin", "secret", Role.a⟩]
      ⟨none, []⟩ (some "admin") (some "secret") "tok1").2.2 ⟨1, "admin", "secret", Role.a⟩
      (by decide) (by decide) (by decide) (by decide)

/-! ## C8: logout clears only the session -/

/-- C8: logout clears the server-side session and changes nothing else —
`active_tokens` is exactly the previous table, so any bearer token that
resolved to an identity before logout still resolves to the same identity
and passes the same authorization checks afterwards. -/
theorem logout_frame (st : AuthState) :
    (logout st).1 = ⟨200, "Logged out.", none⟩ ∧
    (logout st).2.session = none ∧
    (logout st).2.active_tokens = st.active_tokens ∧
    (∀ tok u, tokenLookup st.active_tokens tok = some u →
      get_current_user (logout st).2 (some tok) = .ok u ∧
      ∀ acc, privileged_gate acc (logout st).2 (some tok) =
        privileged_check acc (some u)) := by
  refine ⟨rfl, rfl, rfl, ?_⟩
  intro tok u h
  constructor
  · simp [get_current_user, resolve_user, logout, h]
  · intro acc
    simp [privileged_gate, resolve_user, logout, h]

/-- Closed instance of `logout_frame`: a session plus one issued token;
after logout the token still resolves to the writer identity. -/
theorem logout_frame_witness :
    (logout ⟨some ⟨2, "w1", Role.w⟩, [("tk", ⟨2, "w1", Role.w⟩)]⟩).1 =
      ⟨200, "Logged out.", none⟩ ∧
    (logout ⟨some ⟨2, "w1", Role.w⟩, [("tk", ⟨2, "w1", Role.w⟩)]⟩).2.session = none ∧
    (logout ⟨some ⟨2, "w1", Role.w⟩, [("tk", ⟨2, "w1", Role.w⟩)]⟩).2.active_tokens =
      [("tk", ⟨2, "w1", Role.w⟩)] ∧
    (get_current_user (logout ⟨some ⟨2, "w1", Role.w⟩,
        [("tk", ⟨2, "w1", Role.w⟩)]⟩).2 (some "tk") = .ok ⟨2, "w1", Role.w⟩ ∧
      ∀ acc, privileged_gate acc (logout ⟨some ⟨2, "w1", Role.w⟩,
          [("tk", ⟨2, "w1", Role.w⟩)]⟩).2 (some "tk") =
        privileged_check acc (some ⟨2, "w1", Role.w⟩)) := by
  have h := logout_frame ⟨some ⟨2, "w1", Role.w⟩, [("tk", ⟨2, "w1", Role.w⟩)]⟩
  exact ⟨h.1, h.2.1, h.2.2.1, h.2.2.2 "tk" ⟨2, "w1", Role.w⟩ (by decide)⟩

/-! ## C3: the delete cascade -/

/-- Final state of `delete_sale`: logs referenced by the sale's details
are filtered out (when there are any), then the sale's detail rows, then
the header row; the state is the same whether the response is 200 or
404. -/
theorem delete_sale_state (db : DB) (sid : Nat) :
    (delete_sale db sid).2 =
      { db with
        logs :=
          (if ((db.sales_details.filter (fun d => d.sale_id == sid)).filterMap
                (fun d => d.log_id)).isEmpty then db.logs
           else db.logs.filter (fun l =>
            !((db.sales_details.filter (fun d => d.sale_id == sid)).filterMap
                (fun d => d.log_id)).contains l.id)),
        sales_details := db.sales_details.filter (fun d => d.sale_id != sid),
        sales := db.sales.filter (fun s => s.id != sid) } := by
  cases hc : ((db.sales_details.filter (fun d => d.sale_id == sid)).filterMap
      (fun d => d.log_id)).isEmpty with
  | true => simp [delete_sale, hc, apply_ite Prod.snd]
  | false => simp [delete_sale, hc, apply_ite Prod.snd]

/-- Response of `delete_sale`: 404 exactly when the header delete would
report `rowcount == 0`, i.e. when no sale row has the id. -/
theorem delete_sale_resp (db : DB) (sid : Nat) :
    (delete_sale db sid).1 =
      (if (db.sales.filter (fun s => s.id == sid)).length == 0 then
        (⟨404, "Sale is not found!", none⟩ : Response)
       else ⟨200, "Sale has been deleted.", none⟩) := by
  cases hc : ((db.sales_details.filter (fun d => d.sale_id == sid)).filterMap
      (fun d => d.log_id)).isEmpty with
  | true => simp [delete_sale, hc, apply_ite Prod.fst]
  | false => simp [delete_sale, hc, apply_ite Prod.fst]

/-- C3: `delete_sale` removes, in one unit, every InventoryLog row
referenced by the sale's details, all the sale's detail rows, and the
sale header; it returns NotFound (404) exactly when the final header
delete affects zero rows — in particular deleting the same id a second
time yields NotFound. -/
theorem delete_sale_cascade (db : DB) (sid : Nat) :
    (∀ d ∈ (delete_sale db sid).2.sales_details, d.sale_id ≠ sid) ∧
    (∀ s ∈ (delete_sale db sid).2.sales, s.id ≠ sid) ∧
    (∀ d ∈ db.sales_details, d.sale_id = sid → ∀ lid, d.log_id = some lid →
      ∀ l ∈ (delete_sale db sid).2.logs, l.id ≠ lid) ∧
    ((delete_sale db sid).1 = ⟨404, "Sale is not found!", none⟩ ↔
      ∀ s ∈ db.sales, s.id ≠ sid) ∧
    ((¬ ∀ s ∈ db.sales, s.id ≠ sid) →
      (delete_sale db sid).1 = ⟨200, "Sale has been deleted.", none⟩) ∧
    (delete_sale (delete_sale db sid).2 sid).1 = ⟨404, "Sale is not found!", none⟩ := by
  have hst := delete_sale_state db sid
  have hre := delete_sale_resp db sid
  refine ⟨?_, ?_, ?_, ?_, ?_, ?_⟩
  · intro d hd
    rw [hst] at hd
    simp only [List.mem_filter] at hd
    simpa using hd.2
  · intro s hs
    rw [hst] at hs
    simp only [List.mem_filter] at hs
    simpa using hs.2
  · intro d hd hsid lid hlid l hl
    rw [hst] at hl
    simp only at hl
    have hmem : lid ∈ (db.sales_details.filter (fun d => d.sale_id == sid)).filterMap
        (fun d => d.log_id) := by
      refine List.mem_filterMap.mpr ⟨d, ?_, hlid⟩
      exact List.mem_filter.mpr ⟨hd, by simp [hsid]⟩
    have hemp : ((db.sales_details.filter (fun d => d.sale_id == sid)).filterMap
        (fun d => d.log_id)).isEmpty = false := by
      cases hq : ((db.sales_details.filter (fun d => d.sale_id == sid)).filterMap
          (fun d => d.log_id)) with
      | nil => rw [hq] at hmem; simp at hmem
      | cons a as => rfl
    rw [hemp] at hl
    simp only [Bool.false_eq_true, if_false] at hl
    have := (List.mem_filter.mp hl).2
    simp only [Bool.not_eq_true'] at this
    intro heq
    rw [heq] at this
    exact absurd hmem (by simpa using this)
  · rw [hre]
    by_cases hc : (db.sales.filter (fun s => s.id == sid)).length = 0
    · have hnil : db.sales.filter (fun s => s.id == sid) = [] :=
        List.length_eq_zero.mp hc
      have : ∀ s ∈ db.sales, s.id ≠ sid := by
        intro s hs
        have := List.filter_eq_nil_iff.mp hnil s hs
        simpa using this
      simp [hc, this]
      exact this
    · have : ¬ ∀ s ∈ db.sales, s.id ≠ sid := by
        intro hall
        apply hc
        rw [List.length_eq_zero]
        exact List.filter_eq_nil_iff.mpr (fun s hs => by simpa using hall s hs)
      simp [hc, this]
  · intro hne
    rw [hre]
    have : ¬ (db.sales.filter (fun s => s.id == sid)).length = 0 := by
      intro hc
      exact hne (fun s hs => by
        simpa using List.filter_eq_nil_iff.mp (List.length_eq_zero.mp hc) s hs)
    simp [this]
  · rw [delete_sale_resp]
    have hnil : ((delete_sale db sid).2.sales.filter (fun s => s.id == sid)) = [] := by
      rw [hst]
      refine List.filter_eq_nil_iff.mpr ?_
      intro s hs
      have := (List.mem_filter.mp hs).2
      simpa using this
    simp [hnil]

/-- Concrete database for exercising `delete_sale`: one sale with one
detail referencing one log. -/
def demoDelDB : DB :=
  ⟨[7], [5], [⟨1, 7, 3⟩], [⟨1, "s", 5, -2, "n"⟩], [⟨1, 1, some 1, 500, none⟩], 2, 2, 2⟩

/-- Closed instance of `delete_sale_cascade` on `demoDelDB`. -/
theorem delete_sale_cascade_witness :
    (∀ d ∈ (delete_sale demoDelDB 1).2.sales_details, d.sale_id ≠ 1) ∧
    (∀ s ∈ (delete_sale demoDelDB 1).2.sales, s.id ≠ 1) ∧
    (∀ d ∈ demoDelDB.sales_details, d.sale_id = 1 → ∀ lid, d.log_id = some lid →
      ∀ l ∈ (delete_sale demoDelDB 1).2.logs, l.id ≠ lid) ∧
    ((delete_sale demoDelDB 1).1 = ⟨404, "Sale is not found!", none⟩ ↔
      ∀ s ∈ demoDelDB.sales, s.id ≠ 1) ∧
    ((¬ ∀ s ∈ demoDelDB.sales, s.id ≠ 1) →
      (delete_sale demoDelDB 1).1 = ⟨200, "Sale has been deleted.", none⟩) ∧
    (delete_sale (delete_sale demoDelDB 1).2 1).1 = ⟨404, "Sale is not found!", none⟩ :=
  delete_sale_cascade demoDelDB 1

/-! ## C1: atomicity of `create_sale` fails — partial writes are committed -/

/-- Concrete database for exercising `create_sale`: customer 7 and
product 5 exist, all tables empty, counters at 1. -/
def demoDB : DB := ⟨[7], [5], [], [], [], 1, 1, 1⟩

/-- C1 is violated by the code: on a create-sale request whose second
line fails validation (no subtotal), the handler returns 400 — but the
`return` leaves the `with` block normally, which commits, so the Sale
header, the first line's InventoryLog and its SaleDetail remain visible.
This theorem evaluates the handler at that failing input. -/
theorem create_sale_partial_commit :
    (create_sale demoDB
        (some ⟨some 7, some [⟨some 5, some 2, some 500, none⟩, ⟨none, none, none, none⟩]⟩)
        (some 3)).1 = ⟨400, "Each detail requires a subtotal!", none⟩ ∧
    (create_sale demoDB
        (some ⟨some 7, some [⟨some 5, some 2, some 500, none⟩, ⟨none, none, none, none⟩]⟩)
        (some 3)).2.sales = [⟨1, 7, 3⟩] ∧
    (create_sale demoDB
        (some ⟨some 7, some [⟨some 5, some 2, some 500, none⟩, ⟨none, none, none, none⟩]⟩)
        (some 3)).2.logs = [⟨1, "s", 5, -2, "Automatic logging from sale #1: None"⟩] ∧
    (create_sale demoDB
        (some ⟨some 7, some [⟨some 5, some 2, some 500, none⟩, ⟨none, none, none, none⟩]⟩)
        (some 3)).2.sales_details = [⟨1, 1, some 1, 500, none⟩] := by
  decide

/-! ## C6: the 500 leaks the exception text; FK errors never occur -/

/-- C6 as stated is false twice over.  The generic failure branch
returns `f"Server error: {str(exc)}"`, so the caller-visible message
embeds the internal exception text — two different internal failures are
distinguishable by the caller.  And no foreign-key violation is ever
classified, because none is raised: foreign keys are unenforced, so a
create-sale naming the nonexistent customer 9 is answered 201 and the
dangling sale header is committed, where the claim promises a
domain-specific 400. -/
theorem server_error_leaks_detail :
    (handle_sale_exc (DbExc.other "boom")).status = 500 ∧
    (handle_sale_exc (DbExc.other "boom")).message = "Server error: boom" ∧
    (handle_sale_exc (DbExc.other "boom")).message ≠
      (handle_sale_exc (DbExc.other "bang")).message ∧
    (create_sale demoDB (some ⟨some 9, some [⟨none, none, some 100, none⟩]⟩)
      (some 3)).1.status = 201 ∧
    (create_sale demoDB (some ⟨some 9, some [⟨none, none, some 100, none⟩]⟩)
      (some 3)).2.sales = [⟨1, 9, 3⟩] := by
  decide

/-! ## C4: a negative quantity slips through `if not quantity` -/

/-- C4 as stated is false: a line referencing product 5 with the
non-positive quantity `-1` is not rejected — Python's `not quantity` is
false for `-1`, so the sale is created (201) and an inventory log with
`delta = +1` is written. -/
theorem negative_quantity_accepted :
    (create_sale demoDB (some ⟨some 7, some [⟨some 5, some (-1), some 500, none⟩]⟩)
      (some 3)).1.status = 201 ∧
    (create_sale demoDB (some ⟨some 7, some [⟨some 5, some (-1), some 500, none⟩]⟩)
      (some 3)).2.logs = [⟨1, "s", 5, 1, "Automatic logging from sale #1: None"⟩] := by
  decide

/-- Unfolding a `find?` past a prefix with no match. -/
theorem find_skip_all {α : Type} {p : α → Bool} :
    ∀ {l₁ : List α} (l₂ : List α), l₁.find? p = none → (l₁ ++ l₂).find? p = l₂.find? p
  | [], l₂, _ => rfl
  | a :: t, l₂, h => by
    cases hpa : p a with
    | true => rw [List.find?_cons_of_pos _ hpa] at h; cases h
    | false =>
      have hpa' : ¬ p a = true := by simp [hpa]
      rw [List.find?_cons_of_neg _ hpa'] at h
      rw [List.cons_append, List.find?_cons_of_neg _ hpa']
      exact find_skip_all l₂ h

/-- Truthiness of an optional integer, unpacked. -/
theorem truthyInt_iff (o : Option Int) :
    truthyInt o = true ↔ ∃ v, o = some v ∧ v ≠ 0 := by
  cases o <;> simp [truthyInt]

/-- How one inserted inventory log relates to its request line. -/
def logMatch (it : SaleItem) (l : LogRow) : Prop :=
  l.type = "s" ∧
  (∃ p, it.product_id = some p ∧ p ≠ 0 ∧ l.product_id = p) ∧
  (∃ q, it.quantity = some q ∧ q ≠ 0 ∧ l.delta = -q)

/-- How one inserted sale-detail row relates to its request line:
it carries the sale id, the line's note and (nonzero) subtotal, a null
log id exactly when the line references no product, and otherwise a log
id resolving in `logs` to a log matching the line. -/
def detailMatch (logs : List LogRow) (sid : Nat) (it : SaleItem) (d : DetailRow) : Prop :=
  d.sale_id = sid ∧ d.note = it.note ∧
  (∃ st, it.subtotal_cents = some st ∧ st ≠ 0 ∧ d.subtotal_cents = st) ∧
  (truthyInt it.product_id = false → d.log_id = none) ∧
  (truthyInt it.product_id = true →
    ∃ lid l, d.log_id = some lid ∧ logs.find? (fun x => x.id == lid) = some l ∧ logMatch it l)

/-- Equation: a line with a falsy subtotal stops the loop with a 400. -/
theorem insertItems_cons_nosub {item : SaleItem} (sid : Nat)
    (rest : List SaleItem) (db : DB) (h1 : truthyInt item.subtotal_cents = false) :
    insertItems sid (item :: rest) db =
      (⟨400, "Each detail requires a subtotal!", none⟩, db) := by
  simp [insertItems, h1]

/-- Equation: a product-referencing line with a falsy quantity stops the
loop with a 400. -/
theorem insertItems_cons_noqty {item : SaleItem} (sid : Nat)
    (rest : List SaleItem) (db : DB) (h1 : truthyInt item.subtotal_cents = true)
    (h2 : truthyInt item.product_id = true) (h3 : truthyInt item.quantity = false) :
    insertItems sid (item :: rest) db =
      (⟨400, "Each detail that contains inventory change must have a quantity!", none⟩, db) := by
  simp [insertItems, h1, h2, h3]

/-- Equation: a line without a product inserts one detail row with a null
log id and continues. -/
theorem insertItems_cons_noprod {item : SaleItem} (sid : Nat)
    (rest : List SaleItem) (db : DB) (h1 : truthyInt item.subtotal_cents = true)
    (h2 : truthyInt item.product_id = false) :
    insertItems sid (item :: rest) db =
      insertItems sid rest
        { db with
          sales_details := db.sales_details ++
            [⟨db.nextDetailId, sid, none, item.subtotal_cents.getD 0, item.note⟩],
          nextDetailId := db.nextDetailId + 1 } := by
  simp [insertItems, h1, h2]

/-- Equation: a product-referencing line with a truthy quantity inserts
one log (unconditionally — no foreign-key check) and one detail row and
continues. -/
theorem insertItems_cons_prod {item : SaleItem} (sid : Nat)
    (rest : List SaleItem) (db : DB) (h1 : truthyInt item.subtotal_cents = true)
    (h2 : truthyInt item.product_id = true) (h3 : truthyInt item.quantity = true) :
    insertItems sid (item :: rest) db =
      insertItems sid rest
        { db with
          logs := db.logs ++
            [⟨db.nextLogId, "s", item.product_id.getD 0, -(item.quantity.getD 0),
              "Automatic logging from sale #" ++ toString sid ++ ": " ++ pyShow item.note⟩],
          nextLogId := db.nextLogId + 1,
          sales_details := db.sales_details ++
            [⟨db.nextDetailId, sid, some db.nextLogId, item.subtotal_cents.getD 0, item.note⟩],
          nextDetailId := db.nextDetailId + 1 } := by
  simp [insertItems, h1, h2, h3]

/-- The detail loop never touches the `sales` table. -/
theorem insertItems_sales (sid : Nat) : ∀ (items : List SaleItem) (db : DB),
    ((insertItems sid items db).2).sales = db.sales := by
  intro items
  induction items with
  | nil => intro db; rfl
  | cons item rest ih =>
    intro db
    cases h1 : truthyInt item.subtotal_cents with
    | false => rw [insertItems_cons_nosub sid rest db h1]
    | true =>
      cases h2 : truthyInt item.product_id with
      | false =>
        rw [insertItems_cons_noprod sid rest db h1 h2]
        exact ih _
      | true =>
        cases h3 : truthyInt item.quantity with
        | false => rw [insertItems_cons_noqty sid rest db h1 h2 h3]
        | true =>
          rw [insertItems_cons_prod sid rest db h1 h2 h3]
          exact ih _

/-- C6 amended: the `except` clauses map an IntegrityError by substring —
a message naming `customer_id` to the customer 400, else one naming
`product_id` to the product 400, else a generic 400 — and any other
exception to a 500 whose message is `"Server error: "` followed by the
exception's own text (the internal detail is included in the response,
not hidden).  In this program the domain-specific branches never fire on
a foreign-key violation: the column-free message sqlite would raise
classifies to the generic 400 (fourth conjunct), and in fact no such
violation is raised at all — the sale header is inserted and committed
whatever the customer id (last conjunct). -/
theorem sale_error_classification (msg : String) :
    (strHas (strLower msg) "customer_id" = true →
      handle_sale_exc (.integrity msg) = ⟨400, "Customer does not exist!", none⟩) ∧
    (strHas (strLower msg) "customer_id" = false →
      strHas (strLower msg) "product_id" = true →
      handle_sale_exc (.integrity msg) = ⟨400, "Product does not exist!", none⟩) ∧
    (strHas (strLower msg) "customer_id" = false →
      strHas (strLower msg) "product_id" = false →
      handle_sale_exc (.integrity msg) = ⟨400, "Invalid input or constraint violation!", none⟩) ∧
    handle_sale_exc (.integrity "FOREIGN KEY constraint failed") =
      ⟨400, "Invalid input or constraint violation!", none⟩ ∧
    handle_sale_exc (.other msg) = ⟨500, "Server error: " ++ msg, none⟩ ∧
    (∀ (db : DB) (c uid : Int) (it : SaleItem) (rest : List SaleItem),
      c ≠ 0 → uid ≠ 0 →
      (create_sale db (some ⟨some c, some (it :: rest)⟩) (some uid)).2.sales =
        db.sales ++ [⟨db.nextSaleId, c, uid⟩]) := by
  refine ⟨?_, ?_, ?_, by decide, rfl, ?_⟩
  · intro h; simp [handle_sale_exc, h]
  · intro h1 h2; simp [handle_sale_exc, h1, h2]
  · intro h1 h2; simp [handle_sale_exc, h1, h2]
  · intro db c uid it rest hc huid
    simp only [create_sale]
    rw [if_neg (by simp [truthyInt, hc]), if_neg (by simp [truthyInt, huid])]
    rw [insertItems_sales]
    rfl

/-- Closed instance of `sale_error_classification`: both column-named
branches (messages this database never produces), the real sqlite
message falling to the generic 400, the leaking 500 branch, and the
dangling-customer commit (customer 9 does not exist in `demoDB`). -/
theorem sale_error_classification_witness :
    handle_sale_exc (.integrity "FOREIGN KEY constraint failed: sales.customer_id") =
      ⟨400, "Customer does not exist!", none⟩ ∧
    handle_sale_exc (.integrity "FOREIGN KEY constraint failed: inventory_logs.product_id") =
      ⟨400, "Product does not exist!", none⟩ ∧
    handle_sale_exc (.integrity "UNIQUE constraint failed: products.sku") =
      ⟨400, "Invalid input or constraint violation!", none⟩ ∧
    handle_sale_exc (.integrity "FOREIGN KEY constraint failed") =
      ⟨400, "Invalid input or constraint violation!", none⟩ ∧
    handle_sale_exc (.other "boom2") = ⟨500, "Server error: boom2", none⟩ ∧
    (create_sale demoDB (some ⟨some 9, some [⟨none, none, some 100, none⟩]⟩)
        (some 3)).2.sales = demoDB.sales ++ [⟨demoDB.nextSaleId, 9, 3⟩] := by
  refine ⟨?_, ?_, ?_, ?_, ?_, ?_⟩
  · exact (sale_error_classification "FOREIGN KEY constraint failed: sales.customer_id").1
      (by decide)
  · exact (sale_error_classification
      "FOREIGN KEY constraint failed: inventory_logs.product_id").2.1 (by decide) (by decide)
  · exact (sale_error_classification "UNIQUE constraint failed: products.sku").2.2.1
      (by decide) (by decide)
  · exact (sale_error_classification "x").2.2.2.1
  · exact (sale_error_classification "boom2").2.2.2.2.1
  · exact (sale_error_classification "x").2.2.2.2.2 demoDB 9 3 ⟨none, none, some 100, none⟩ []
      (by decide) (by decide)

set_option maxHeartbeats 1000000

/-- Run lemma for the detail loop: however far the loop gets, the final
state extends the tables by the rows of the fully processed prefix (`k`
lines), each new log/detail matching its line; success (201) means the
whole list was processed, and the loop only answers 201 or 400. -/
theorem insertItems_run (sid : Nat) :
    ∀ (items : List SaleItem) (db : DB),
    (∀ l ∈ db.logs, l.id < db.nextLogId) →
    ∀ resp db', insertItems sid items db = (resp, db') →
    ∃ k newLogs newDetails,
      k ≤ items.length ∧
      db'.customers = db.customers ∧
      db'.products = db.products ∧
      db'.sales = db.sales ∧
      db'.nextSaleId = db.nextSaleId ∧
      db.nextLogId ≤ db'.nextLogId ∧
      db'.logs = db.logs ++ newLogs ∧
      db'.sales_details = db.sales_details ++ newDetails ∧
      (∀ l ∈ db'.logs, l.id < db'.nextLogId) ∧
      List.Forall₂ logMatch ((items.take k).filter (fun it => truthyInt it.product_id)) newLogs ∧
      List.Forall₂ (detailMatch db'.logs sid) (items.take k) newDetails ∧
      (resp.status = 201 →
        k = items.length ∧ resp = ⟨201, "Sale has been created.", some sid⟩) ∧
      (resp.status = 201 ∨ resp.status = 400) := by
  intro items
  induction items with
  | nil =>
    intro db hWF resp db' heq
    simp only [insertItems] at heq
    obtain ⟨hr, hd⟩ := Prod.mk.injEq .. |>.mp heq
    subst hr; subst hd
    exact ⟨0, [], [], by simp, rfl, rfl, rfl, rfl, le_refl _, by simp, by simp, hWF,
      .nil, .nil, fun _ => ⟨rfl, rfl⟩, Or.inl rfl⟩
  | cons item rest ih =>
    intro db hWF resp db' heq
    cases h1 : truthyInt item.subtotal_cents with
    | false =>
      rw [insertItems_cons_nosub sid rest db h1] at heq
      obtain ⟨hr, hd⟩ := Prod.mk.injEq .. |>.mp heq
      subst hr; subst hd
      refine ⟨0, [], [], by simp, rfl, rfl, rfl, rfl, le_refl _, by simp, by simp, hWF,
        .nil, .nil, ?_, Or.inr rfl⟩
      intro h
      exact absurd h (by decide)
    | true =>
      obtain ⟨st, hsteq, hstne⟩ := (truthyInt_iff item.subtotal_cents).mp h1
      cases h2 : truthyInt item.product_id with
      | false =>
        rw [insertItems_cons_noprod sid rest db h1 h2] at heq
        have hWF1 : ∀ l ∈ (({ db with
            sales_details := db.sales_details ++
              [⟨db.nextDetailId, sid, none, item.subtotal_cents.getD 0, item.note⟩],
            nextDetailId := db.nextDetailId + 1 } : DB)).logs,
            l.id < (({ db with
            sales_details := db.sales_details ++
              [⟨db.nextDetailId, sid, none, item.subtotal_cents.getD 0, item.note⟩],
            nextDetailId := db.nextDetailId + 1 } : DB)).nextLogId := hWF
        obtain ⟨k, nl, nd, hk, hc, hp, hs, hn, hle, hlg, hdt, hwf, hf2l, hf2d, h201, hst⟩ :=
          ih _ hWF1 resp db' heq
        refine ⟨k + 1, nl, ⟨db.nextDetailId, sid, none, item.subtotal_cents.getD 0, item.note⟩ :: nd,
          ?_, hc, hp, hs, hn, hle, hlg, ?_, hwf, ?_, ?_, ?_, hst⟩
        · simpa using Nat.succ_le_succ hk
        · rw [hdt]; simp
        · simpa [List.take_succ_cons, List.filter_cons, h2] using hf2l
        · rw [List.take_succ_cons]
          refine List.Forall₂.cons ?_ hf2d
          refine ⟨rfl, rfl, ⟨st, hsteq, hstne, by simp [hsteq]⟩, fun _ => rfl, ?_⟩
          intro hT
          rw [h2] at hT
          cases hT
        · intro hS
          obtain ⟨hk201, hr201⟩ := h201 hS
          exact ⟨by simp [hk201], hr201⟩
      | true =>
        obtain ⟨p, hpeq, hpne⟩ := (truthyInt_iff item.product_id).mp h2
        cases h3 : truthyInt item.quantity with
        | false =>
          rw [insertItems_cons_noqty sid rest db h1 h2 h3] at heq
          obtain ⟨hr, hd⟩ := Prod.mk.injEq .. |>.mp heq
          subst hr; subst hd
          refine ⟨0, [], [], by simp, rfl, rfl, rfl, rfl, le_refl _, by simp, by simp, hWF,
            .nil, .nil, ?_, Or.inr rfl⟩
          intro h
          exact absurd h (by decide)
        | true =>
          obtain ⟨q, hqeq, hqne⟩ := (truthyInt_iff item.quantity).mp h3
          rw [insertItems_cons_prod sid rest db h1 h2 h3] at heq
          have hWF2 : ∀ l ∈ (db.logs ++
              [(⟨db.nextLogId, "s", item.product_id.getD 0, -(item.quantity.getD 0),
                "Automatic logging from sale #" ++ toString sid ++ ": " ++
                  pyShow item.note⟩ : LogRow)]),
              l.id < db.nextLogId + 1 := by
            intro l hl
            rcases List.mem_append.mp hl with h | h
            · exact Nat.lt_succ_of_lt (hWF l h)
            · simp only [List.mem_singleton] at h
              subst h
              exact Nat.lt_succ_self _
          obtain ⟨k, nl, nd, hk, hc, hp', hs, hn, hle, hlg, hdt, hwf, hf2l, hf2d, h201, hst⟩ :=
            ih _ hWF2 resp db' heq
          have hlogs : db'.logs = db.logs ++
              ((⟨db.nextLogId, "s", item.product_id.getD 0, -(item.quantity.getD 0),
                "Automatic logging from sale #" ++ toString sid ++ ": " ++
                  pyShow item.note⟩ : LogRow) :: nl) := by
            rw [hlg]; simp
          have hlm : logMatch item
              ⟨db.nextLogId, "s", item.product_id.getD 0, -(item.quantity.getD 0),
                "Automatic logging from sale #" ++ toString sid ++ ": " ++
                  pyShow item.note⟩ := by
            exact ⟨rfl, ⟨p, hpeq, hpne, by simp [hpeq]⟩, ⟨q, hqeq, hqne, by simp [hqeq]⟩⟩
          refine ⟨k + 1,
            ⟨db.nextLogId, "s", item.product_id.getD 0, -(item.quantity.getD 0),
              "Automatic logging from sale #" ++ toString sid ++ ": " ++
                pyShow item.note⟩ :: nl,
            ⟨db.nextDetailId, sid, some db.nextLogId, item.subtotal_cents.getD 0,
              item.note⟩ :: nd,
            ?_, hc, hp', hs, hn, ?_, hlogs, ?_, hwf, ?_, ?_, ?_, hst⟩
          · simpa using Nat.succ_le_succ hk
          · exact le_trans (Nat.le_succ _) hle
          · rw [hdt]; simp
          · rw [List.take_succ_cons, List.filter_cons]
            simp only [h2, if_true]
            exact List.Forall₂.cons hlm hf2l
          · rw [List.take_succ_cons]
            refine List.Forall₂.cons ?_ hf2d
            refine ⟨rfl, rfl, ⟨st, hsteq, hstne, by simp [hsteq]⟩, ?_, ?_⟩
            · intro hF
              rw [h2] at hF
              cases hF
            · intro _
              refine ⟨db.nextLogId,
                ⟨db.nextLogId, "s", item.product_id.getD 0, -(item.quantity.getD 0),
                  "Automatic logging from sale #" ++ toString sid ++ ": " ++
                    pyShow item.note⟩, rfl, ?_, hlm⟩
              rw [hlogs]
              rw [find_skip_all _ ?hnone]
              case hnone =>
                rw [List.find?_eq_none]
                intro x hx
                simp only [beq_iff_eq]
                exact Nat.ne_of_lt (hWF x hx)
              rw [List.find?_cons_of_pos]
              simp
          · intro hS
            obtain ⟨hk201, hr201⟩ := h201 hS
            exact ⟨by simp [hk201], hr201⟩

/-- Run lemma for a successful `create_sale`: a 201 means all the input
checks passed, one sale header was inserted with the request's customer
and the resolved user (whether or not that customer exists — foreign
keys are unenforced), and the detail loop processed every line, the new
logs/details matching the lines. -/
theorem create_sale_run (db : DB) (req : SaleRequest) (uid : Option Int)
    (resp : Response) (db' : DB)
    (hWF : ∀ l ∈ db.logs, l.id < db.nextLogId)
    (heq : create_sale db (some req) uid = (resp, db'))
    (h201 : resp.status = 201) :
    ∃ c u items newLogs newDetails,
      req.customer_id = some c ∧ c ≠ 0 ∧
      uid = some u ∧ u ≠ 0 ∧
      req.details = some items ∧ items ≠ [] ∧
      resp = ⟨201, "Sale has been created.", some db.nextSaleId⟩ ∧
      db'.customers = db.customers ∧
      db'.products = db.products ∧
      db'.sales = db.sales ++ [⟨db.nextSaleId, c, u⟩] ∧
      db'.logs = db.logs ++ newLogs ∧
      db'.sales_details = db.sales_details ++ newDetails ∧
      (∀ l ∈ db'.logs, l.id < db'.nextLogId) ∧
      List.Forall₂ logMatch (items.filter (fun it => truthyInt it.product_id)) newLogs ∧
      List.Forall₂ (detailMatch db'.logs db.nextSaleId) items newDetails := by
  cases h1 : truthyInt req.customer_id with
  | false =>
    simp [create_sale, h1] at heq
    obtain ⟨hr, _⟩ := heq
    rw [← hr] at h201
    exact absurd h201 (by decide)
  | true =>
    obtain ⟨c, hceq, hcne⟩ := (truthyInt_iff req.customer_id).mp h1
    cases hdet : req.details with
    | none =>
      simp [create_sale, h1, hdet] at heq
      obtain ⟨hr, _⟩ := heq
      rw [← hr] at h201
      exact absurd h201 (by decide)
    | some items =>
      cases items with
      | nil =>
        simp [create_sale, h1, hdet] at heq
        obtain ⟨hr, _⟩ := heq
        rw [← hr] at h201
        exact absurd h201 (by decide)
      | cons it rest =>
        cases h2 : truthyInt uid with
        | false =>
          simp [create_sale, h1, hdet, h2] at heq
          obtain ⟨hr, _⟩ := heq
          rw [← hr] at h201
          exact absurd h201 (by decide)
        | true =>
          obtain ⟨u, hueq, hune⟩ := (truthyInt_iff uid).mp h2
          simp only [create_sale, h1, hdet, h2, hceq, hueq, Option.getD_some] at heq
          rw [if_neg (by simp [truthyInt, hcne]), if_neg (by simp [truthyInt, hune])] at heq
          have hWF1 : ∀ l ∈ (({ db with
              sales := db.sales ++ [⟨db.nextSaleId, c, u⟩],
              nextSaleId := db.nextSaleId + 1 } : DB)).logs,
              l.id < (({ db with
              sales := db.sales ++ [⟨db.nextSaleId, c, u⟩],
              nextSaleId := db.nextSaleId + 1 } : DB)).nextLogId := hWF
          obtain ⟨k, nl, nd, hk, hc', hp', hs', hn', hle, hlg, hdt, hwf, hf2l, hf2d,
            himp, hst⟩ := insertItems_run db.nextSaleId (it :: rest) _
              hWF1 resp db' heq
          obtain ⟨hk201, hr201⟩ := himp h201
          subst hk201
          rw [List.take_length] at hf2l hf2d
          exact ⟨c, u, it :: rest, nl, nd, hceq, hcne, hueq, hune, rfl, by simp,
            hr201, hc', hp', hs', hlg, hdt, hwf, hf2l, hf2d⟩

/-- Membership on the right of a `Forall₂`. -/
theorem forall2_right_mem {α β : Type} {R : α → β → Prop} :
    ∀ {as : List α} {bs : List β}, List.Forall₂ R as bs →
      ∀ b ∈ bs, ∃ a, a ∈ as ∧ R a b
  | _, _, .nil, b, hb => absurd hb (List.not_mem_nil b)
  | _, _, .cons h t, b, hb => by
    rcases List.mem_cons.mp hb with rfl | hb'
    · exact ⟨_, List.mem_cons_self _ _, h⟩
    · obtain ⟨a, ha, hr⟩ := forall2_right_mem t b hb'
      exact ⟨a, List.mem_cons_of_mem _ ha, hr⟩

/-- Membership on the left of a `Forall₂`. -/
theorem forall2_left_mem {α β : Type} {R : α → β → Prop} :
    ∀ {as : List α} {bs : List β}, List.Forall₂ R as bs →
      ∀ a ∈ as, ∃ b, b ∈ bs ∧ R a b
  | _, _, .nil, a, ha => absurd ha (List.not_mem_nil a)
  | _, _, .cons h t, a, ha => by
    rcases List.mem_cons.mp ha with rfl | ha'
    · exact ⟨_, List.mem_cons_self _ _, h⟩
    · obtain ⟨b, hb, hr⟩ := forall2_left_mem t a ha'
      exact ⟨b, List.mem_cons_of_mem _ hb, hr⟩

/-! ## C2: the ledger shape of a successful create -/

/-- C2: a successful (201) `create_sale` with N inventory-affecting lines
(lines whose `product_id` is truthy) appends exactly N InventoryLog rows
— one per such line, in order, with `delta = -quantity` of its line — and
appends one SaleDetail row per line of the request (so exactly N when
every line is inventory-affecting), the rows of product-less lines
carrying a null log id. -/
theorem create_sale_ledger (db : DB) (data : Option SaleRequest) (uid : Option Int)
    (resp : Response) (db' : DB)
    (hWF : ∀ l ∈ db.logs, l.id < db.nextLogId)
    (heq : create_sale db data uid = (resp, db'))
    (h201 : resp.status = 201) :
    ∃ req items newLogs newDetails,
      data = some req ∧
      req.details = some items ∧
      db'.logs = db.logs ++ newLogs ∧
      db'.sales_details = db.sales_details ++ newDetails ∧
      newLogs.length = (items.filter (fun it => truthyInt it.product_id)).length ∧
      newDetails.length = items.length ∧
      List.Forall₂ (fun (it : SaleItem) (l : LogRow) =>
          ∃ q, it.quantity = some q ∧ l.delta = -q)
        (items.filter (fun it => truthyInt it.product_id)) newLogs ∧
      List.Forall₂ (fun (it : SaleItem) (d : DetailRow) =>
          truthyInt it.product_id = false → d.log_id = none)
        items newDetails := by
  cases data with
  | none =>
    simp [create_sale] at heq
    obtain ⟨hr, _⟩ := heq
    rw [← hr] at h201
    exact absurd h201 (by decide)
  | some req =>
    obtain ⟨c, u, items, nl, nd, _, _, _, _, hdet, _, _, _, _, _, hlg, hdt, _, hf2l, hf2d⟩ :=
      create_sale_run db req uid resp db' hWF heq h201
    refine ⟨req, items, nl, nd, rfl, hdet, hlg, hdt, (List.Forall₂.length_eq hf2l).symm,
      (List.Forall₂.length_eq hf2d).symm, ?_, ?_⟩
    · refine hf2l.imp (fun a b hm => ?_)
      obtain ⟨q, hq, _, hd⟩ := hm.2.2
      exact ⟨q, hq, hd⟩
    · exact hf2d.imp (fun a b hm => hm.2.2.2.1)

/-- Closed instance of `create_sale_ledger`: a two-line request (one
product line, one product-less line) against `demoDB`. -/
theorem create_sale_ledger_witness :
    ∃ req items newLogs newDetails,
      (some ⟨some 7, some [⟨some 5, some 2, some 500, none⟩, ⟨none, none, some 300, none⟩]⟩ :
        Option SaleRequest) = some req ∧
      req.details = some items ∧
      (create_sale demoDB
        (some ⟨some 7, some [⟨some 5, some 2, some 500, none⟩, ⟨none, none, some 300, none⟩]⟩)
        (some 3)).2.logs = demoDB.logs ++ newLogs ∧
      (create_sale demoDB
        (some ⟨some 7, some [⟨some 5, some 2, some 500, none⟩, ⟨none, none, some 300, none⟩]⟩)
        (some 3)).2.sales_details = demoDB.sales_details ++ newDetails ∧
      newLogs.length = (items.filter (fun it => truthyInt it.product_id)).length ∧
      newDetails.length = items.length ∧
      List.Forall₂ (fun (it : SaleItem) (l : LogRow) =>
          ∃ q, it.quantity = some q ∧ l.delta = -q)
        (items.filter (fun it => truthyInt it.product_id)) newLogs ∧
      List.Forall₂ (fun (it : SaleItem) (d : DetailRow) =>
          truthyInt it.product_id = false → d.log_id = none)
        items newDetails :=
  create_sale_ledger demoDB
    (some ⟨some 7, some [⟨some 5, some 2, some 500, none⟩, ⟨none, none, some 300, none⟩]⟩)
    (some 3) _ _ (by decide) rfl (by decide)

/-- Well-formedness of a database state: every stored row id is below its
table's autoincrement counter.  It holds for the empty database and is
preserved by the handlers; the round-trip theorem needs it so that the
fresh ids of a new sale cannot collide with existing rows. -/
def DB.WF (db : DB) : Prop :=
  (∀ l ∈ db.logs, l.id < db.nextLogId) ∧
  (∀ s ∈ db.sales, s.id < db.nextSaleId) ∧
  (∀ d ∈ db.sales_details, d.sale_id < db.nextSaleId)

/-! ## C10: quantity round-trips through the ledger -/

/-- C10: for every sale created successfully by `create_sale` on a
well-formed database, `get_sale` on the returned id finds the sale, reports
one detail row per request line, and for each product-referencing line the
reported `quantity` (computed as `-delta` of the joined log) equals the
quantity of the original request line. -/
theorem create_sale_roundtrip (db : DB) (data : Option SaleRequest) (uid : Option Int)
    (resp : Response) (db' : DB)
    (hWF : db.WF) (heq : create_sale db data uid = (resp, db'))
    (h201 : resp.status = 201) :
    ∃ req sid items view,
      data = some req ∧
      resp.id = some sid ∧
      req.details = some items ∧
      get_sale db' sid = some view ∧
      view.details.length = items.length ∧
      List.Forall₂ (fun (it : SaleItem) (dv : DetailView) =>
        truthyInt it.product_id = true → dv.quantity = it.quantity) items view.details := by
  cases data with
  | none =>
    simp [create_sale] at heq
    obtain ⟨hr, _⟩ := heq
    rw [← hr] at h201
    exact absurd h201 (by decide)
  | some req =>
    obtain ⟨c, u, items, nl, nd, hceq, hcne, hueq, hune, hdet, hne, hr201, hc', hp', hs',
      hlg, hdt, hwf', hf2l, hf2d⟩ := create_sale_run db req uid resp db' hWF.1 heq h201
    have hfind : db'.sales.find? (fun s => s.id == db.nextSaleId) =
        some ⟨db.nextSaleId, c, u⟩ := by
      rw [hs', find_skip_all]
      · rw [List.find?_cons_of_pos _ (by simp)]
      · rw [List.find?_eq_none]
        intro x hx
        simp only [beq_iff_eq]
        exact Nat.ne_of_lt (hWF.2.1 x hx)
    have hfilter : db'.sales_details.filter (fun d => d.sale_id == db.nextSaleId) = nd := by
      rw [hdt, List.filter_append]
      have h1 : db.sales_details.filter (fun d => d.sale_id == db.nextSaleId) = [] := by
        rw [List.filter_eq_nil_iff]
        intro d hd
        simp only [beq_iff_eq]
        exact Nat.ne_of_lt (hWF.2.2 d hd)
      have h2 : nd.filter (fun d => d.sale_id == db.nextSaleId) = nd := by
        rw [List.filter_eq_self]
        intro d hd
        obtain ⟨a, _, hm⟩ := forall2_right_mem hf2d d hd
        simp [hm.1]
      rw [h1, h2, List.nil_append]
    refine ⟨req, db.nextSaleId, items,
      ⟨db.nextSaleId, c, u, nd.map (detailView db'.logs)⟩, rfl, by rw [hr201], hdet,
      ?_, ?_, ?_⟩
    · simp only [get_sale, hfind, hfilter]
    · rw [List.length_map]
      exact (List.Forall₂.length_eq hf2d).symm
    · refine List.forall₂_map_right_iff.mpr (hf2d.imp (fun a b hm => ?_))
      intro hT
      obtain ⟨lid, l, hdl, hfind2, hlm⟩ := hm.2.2.2.2 hT
      obtain ⟨q, hq, _, hdq⟩ := hlm.2.2
      simp [detailView, hdl, hfind2, hdq, hq, neg_neg]

/-- Closed instance of `create_sale_roundtrip`: the two-line request
against `demoDB`; the product line's quantity 2 is reported back. -/
theorem create_sale_roundtrip_witness :
    ∃ req sid items view,
      (some ⟨some 7, some [⟨some 5, some 2, some 500, none⟩, ⟨none, none, some 300, none⟩]⟩ :
        Option SaleRequest) = some req ∧
      (create_sale demoDB
        (some ⟨some 7, some [⟨some 5, some 2, some 500, none⟩, ⟨none, none, some 300, none⟩]⟩)
        (some 3)).1.id = some sid ∧
      req.details = some items ∧
      get_sale (create_sale demoDB
        (some ⟨some 7, some [⟨some 5, some 2, some 500, none⟩, ⟨none, none, some 300, none⟩]⟩)
        (some 3)).2 sid = some view ∧
      view.details.length = items.length ∧
      List.Forall₂ (fun (it : SaleItem) (dv : DetailView) =>
        truthyInt it.product_id = true → dv.quantity = it.quantity) items view.details :=
  create_sale_roundtrip demoDB
    (some ⟨some 7, some [⟨some 5, some 2, some 500, none⟩, ⟨none, none, some 300, none⟩]⟩)
    (some 3) _ _ (by refine ⟨?_, ?_, ?_⟩ <;> decide) rfl (by decide)

/-- If some line of the list has a falsy subtotal, or references a
product with a falsy quantity, the loop always answers 400 — the line
fails when reached, and any earlier stop is itself a 400. -/
theorem insertItems_stuck (sid : Nat) :
    ∀ (items : List SaleItem) (db : DB),
    (∃ it ∈ items, truthyInt it.subtotal_cents = false ∨
      (truthyInt it.product_id = true ∧ truthyInt it.quantity = false)) →
    (insertItems sid items db).1.status = 400 := by
  intro items
  induction items with
  | nil =>
    intro db hbad
    obtain ⟨it, hmem, _⟩ := hbad
    exact absurd hmem (List.not_mem_nil it)
  | cons x rest ih =>
    intro db hbad
    cases h1 : truthyInt x.subtotal_cents with
    | false => rw [insertItems_cons_nosub sid rest db h1]
    | true =>
      cases h2 : truthyInt x.product_id with
      | false =>
        rw [insertItems_cons_noprod sid rest db h1 h2]
        refine ih _ ?_
        obtain ⟨it, hmem, hb⟩ := hbad
        rcases List.mem_cons.mp hmem with rfl | hmem'
        · rcases hb with hb | ⟨hbp, hbq⟩
          · rw [h1] at hb; cases hb
          · rw [h2] at hbp; cases hbp
        · exact ⟨it, hmem', hb⟩
      | true =>
        cases h3 : truthyInt x.quantity with
        | false => rw [insertItems_cons_noqty sid rest db h1 h2 h3]
        | true =>
          rw [insertItems_cons_prod sid rest db h1 h2 h3]
          refine ih _ ?_
          obtain ⟨it, hmem, hb⟩ := hbad
          rcases List.mem_cons.mp hmem with rfl | hmem'
          · rcases hb with hb | ⟨hbp, hbq⟩
            · rw [h1] at hb; cases hb
            · rw [h3] at hbq; cases hbq
          · exact ⟨it, hmem', hb⟩

/-- `create_sale` on a detail list containing such a line answers 400
whenever the caller identity resolved (the only non-400 early answer is
the 401 of a falsy user id). -/
theorem create_sale_stuck (db : DB) (cid uid : Option Int) (L : List SaleItem)
    (hbad : ∃ it ∈ L, truthyInt it.subtotal_cents = false ∨
      (truthyInt it.product_id = true ∧ truthyInt it.quantity = false))
    (huid : truthyInt uid = true) :
    (create_sale db (some ⟨cid, some L⟩) uid).1.status = 400 := by
  cases L with
  | nil =>
    obtain ⟨it, hmem, _⟩ := hbad
    exact absurd hmem (List.not_mem_nil it)
  | cons a as =>
    by_cases hcid : truthyInt cid
    · simp only [create_sale]
      rw [if_neg (by simp [hcid]), if_neg (by simp [huid])]
      exact insertItems_stuck _ _ _ hbad
    · simp only [create_sale]
      rw [if_pos (by simpa using hcid)]

/-- Every inventory log present after any `create_sale` call is either an
old row or records a nonzero quantity (`delta = -q`, `q ≠ 0`): the loop
writes logs only for lines that passed the quantity check. -/
theorem create_sale_new_logs (db : DB) (data : Option SaleRequest) (uid : Option Int)
    (hWF : ∀ l ∈ db.logs, l.id < db.nextLogId) :
    ∀ l ∈ (create_sale db data uid).2.logs,
      l ∈ db.logs ∨ ∃ q : Int, q ≠ 0 ∧ l.delta = -q := by
  cases data with
  | none =>
    simp [create_sale]
    exact fun l hl => Or.inl hl
  | some req =>
    by_cases hcid : truthyInt req.customer_id
    · cases hdet : req.details with
      | none =>
        simp [create_sale, hcid, hdet]
        exact fun l hl => Or.inl hl
      | some L =>
        cases L with
        | nil =>
          simp [create_sale, hcid, hdet]
          exact fun l hl => Or.inl hl
        | cons a as =>
          by_cases huid : truthyInt uid
          · simp only [create_sale, hdet]
            rw [if_neg (by simp [hcid]), if_neg (by simp [huid])]
            set dbX : DB := { db with
                sales := db.sales ++
                  [⟨db.nextSaleId, req.customer_id.getD 0, uid.getD 0⟩],
                nextSaleId := db.nextSaleId + 1 } with hdbX
            have hWF1 : ∀ l ∈ dbX.logs, l.id < dbX.nextLogId := hWF
            obtain ⟨k, nl, nd, _, _, _, _, _, _, hlg, _, _, hf2l, _, _, _⟩ :=
              insertItems_run db.nextSaleId (a :: as) dbX hWF1
                (insertItems db.nextSaleId (a :: as) dbX).1
                (insertItems db.nextSaleId (a :: as) dbX).2 rfl
            intro l hl
            rw [hlg] at hl
            rcases List.mem_append.mp hl with h | h
            · exact Or.inl h
            · obtain ⟨itx, _, hlm⟩ := forall2_right_mem hf2l l h
              obtain ⟨q, _, hqne, hdq⟩ := hlm.2.2
              exact Or.inr ⟨q, hqne, hdq⟩
          · simp [create_sale, hcid, hdet, huid]
            exact fun l hl => Or.inl hl
    · simp [create_sale, hcid]
      exact fun l hl => Or.inl hl

/-- C4 amended: a line that references a product with its quantity absent
or zero (Python-falsy) makes the request fail with a 400 whenever the
caller identity resolved, and no inventory log is ever written for such a
line — every log present afterwards is an old row or records a nonzero
quantity.  (The unamended claim — rejection of every non-positive
quantity — is false: see the counterexample with quantity `-1`.) -/
theorem product_line_requires_quantity (db : DB) (req : SaleRequest) (uid : Option Int)
    (items : List SaleItem) (it : SaleItem)
    (hWF : ∀ l ∈ db.logs, l.id < db.nextLogId)
    (hdet : req.details = some items) (hmem : it ∈ items)
    (hprod : truthyInt it.product_id = true) (hqty : truthyInt it.quantity = false)
    (huid : truthyInt uid = true) :
    (create_sale db (some req) uid).1.status = 400 ∧
    (∀ l ∈ (create_sale db (some req) uid).2.logs,
      l ∈ db.logs ∨ ∃ q : Int, q ≠ 0 ∧ l.delta = -q) := by
  constructor
  · have hre : req = ⟨req.customer_id, some items⟩ := by
      obtain ⟨rc, rd⟩ := req
      simp only at hdet
      rw [hdet]
    rw [hre]
    exact create_sale_stuck db req.customer_id uid items
      ⟨it, hmem, Or.inr ⟨hprod, hqty⟩⟩ huid
  · exact create_sale_new_logs db (some req) uid hWF

/-- Closed instance of `product_line_requires_quantity`: a product line
with no quantity at all is answered 400 and writes nothing. -/
theorem product_line_requires_quantity_witness :
    (create_sale demoDB (some ⟨some 7, some [⟨some 5, none, some 500, none⟩]⟩)
      (some 3)).1.status = 400 ∧
    (∀ l ∈ (create_sale demoDB (some ⟨some 7, some [⟨some 5, none, some 500, none⟩]⟩)
        (some 3)).2.logs,
      l ∈ demoDB.logs ∨ ∃ q : Int, q ≠ 0 ∧ l.delta = -q) :=
  product_line_requires_quantity demoDB ⟨some 7, some [⟨some 5, none, some 500, none⟩]⟩
    (some 3) [⟨some 5, none, some 500, none⟩] ⟨some 5, none, some 500, none⟩
    (by decide) (by decide) (by decide) (by decide) (by decide) (by decide)

/-- Congruence: two detail lists sharing a common prefix, whose tails the
loop treats identically, give identical runs. -/
theorem insertItems_congr_tail (sid : Nat)
    (it1 it2 : SaleItem) (rest : List SaleItem)
    (hsame : ∀ db : DB, insertItems sid (it1 :: rest) db =
      insertItems sid (it2 :: rest) db) :
    ∀ (pre : List SaleItem) (db : DB),
      insertItems sid (pre ++ it1 :: rest) db =
        insertItems sid (pre ++ it2 :: rest) db := by
  intro pre
  induction pre with
  | nil => intro db; exact hsame db
  | cons x xs ih =>
    intro db
    rw [List.cons_append, List.cons_append]
    cases hx1 : truthyInt x.subtotal_cents with
    | false =>
      rw [insertItems_cons_nosub sid _ db hx1,
        insertItems_cons_nosub sid _ db hx1]
    | true =>
      cases hx2 : truthyInt x.product_id with
      | false =>
        rw [insertItems_cons_noprod sid _ db hx1 hx2,
          insertItems_cons_noprod sid _ db hx1 hx2]
        exact ih _
      | true =>
        cases hx3 : truthyInt x.quantity with
        | false =>
          rw [insertItems_cons_noqty sid _ db hx1 hx2 hx3,
            insertItems_cons_noqty sid _ db hx1 hx2 hx3]
        | true =>
          rw [insertItems_cons_prod sid _ db hx1 hx2 hx3,
            insertItems_cons_prod sid _ db hx1 hx2 hx3]
          exact ih _

/-- Congruence lifted through `create_sale`: the surrounding checks only
look at the body's presence, the customer, the user, and the
non-emptiness of the list. -/
theorem create_sale_items_congr (db : DB) (cid uid : Option Int)
    (L1 L2 : List SaleItem) (h1 : L1 ≠ []) (h2 : L2 ≠ [])
    (hins : ∀ db2 : DB, insertItems db.nextSaleId L1 db2 =
      insertItems db.nextSaleId L2 db2) :
    create_sale db (some ⟨cid, some L1⟩) uid = create_sale db (some ⟨cid, some L2⟩) uid := by
  cases L1 with
  | nil => exact absurd rfl h1
  | cons a as =>
    cases L2 with
    | nil => exact absurd rfl h2
    | cons b bs =>
      by_cases hcid : truthyInt cid
      · by_cases huid : truthyInt uid
        · have hc1 : ¬ ¬ truthyInt cid = true := not_not_intro hcid
          have hu1 : ¬ ¬ truthyInt uid = true := not_not_intro huid
          simp only [create_sale]
          rw [if_neg hc1, if_neg hc1, if_neg hu1, if_neg hu1]
          exact hins _
        · simp [create_sale, hcid, huid]
      · simp [create_sale, hcid]

/-! ## C9: zero-valued fields behave as absent fields -/

/-- C9: zero is treated as absent at the `create_sale` interface.  A body
carrying `customer_id = 0` (a non-empty, hence truthy, JSON object) gives
the very same response and state as the same body without the field (a
400; the empty body `{}` is falsy and gets its own 400 at the
`if not data` check, which the model renders as the `none` body); a line
with `subtotal_cents = 0` behaves exactly as one with the subtotal
missing (a 400 whenever the caller resolved, the only other outcome
being the 401); a product line with `quantity = 0` behaves exactly as
one with the quantity missing. -/
theorem zero_treated_as_absent :
    (∀ (db : DB) (d : Option (List SaleItem)) (uid : Option Int),
      create_sale db (some ⟨some 0, d⟩) uid = create_sale db (some ⟨none, d⟩) uid ∧
      (create_sale db (some ⟨some 0, d⟩) uid).1.status = 400) ∧
    (∀ (db : DB) (cid uid : Option Int) (pre rest : List SaleItem)
      (pid q : Option Int) (nt : Option String),
      create_sale db (some ⟨cid, some (pre ++ ⟨pid, q, some 0, nt⟩ :: rest)⟩) uid =
        create_sale db (some ⟨cid, some (pre ++ ⟨pid, q, none, nt⟩ :: rest)⟩) uid ∧
      (truthyInt uid = true →
        (create_sale db (some ⟨cid, some (pre ++ ⟨pid, q, some 0, nt⟩ :: rest)⟩)
          uid).1.status = 400)) ∧
    (∀ (db : DB) (cid uid : Option Int) (pre rest : List SaleItem) (p : Int),
      p ≠ 0 → ∀ (stc : Option Int) (nt : Option String),
      create_sale db (some ⟨cid, some (pre ++ ⟨some p, some 0, stc, nt⟩ :: rest)⟩) uid =
        create_sale db (some ⟨cid, some (pre ++ ⟨some p, none, stc, nt⟩ :: rest)⟩) uid ∧
      (truthyInt uid = true →
        (create_sale db (some ⟨cid, some (pre ++ ⟨some p, some 0, stc, nt⟩ :: rest)⟩)
          uid).1.status = 400)) := by
  refine ⟨?_, ?_, ?_⟩
  · intro db d uid
    constructor
    · simp [create_sale, truthyInt]
    · simp [create_sale, truthyInt]
  · intro db cid uid pre rest pid q nt
    constructor
    · refine create_sale_items_congr db cid uid _ _ (by simp) (by simp) ?_
      exact insertItems_congr_tail db.nextSaleId _ _ rest
        (fun db2 => by
          rw [@insertItems_cons_nosub ⟨pid, q, some 0, nt⟩ db.nextSaleId rest db2 rfl,
            @insertItems_cons_nosub ⟨pid, q, none, nt⟩ db.nextSaleId rest db2 rfl])
        pre
    · intro huid
      exact create_sale_stuck db cid uid _
        ⟨⟨pid, q, some 0, nt⟩,
          List.mem_append_right _ (List.mem_cons_self _ _), Or.inl rfl⟩ huid
  · intro db cid uid pre rest p hp stc nt
    have hprod : truthyInt (some p) = true := by simp [truthyInt, hp]
    constructor
    · refine create_sale_items_congr db cid uid _ _ (by simp) (by simp) ?_
      refine insertItems_congr_tail db.nextSaleId _ _ rest ?_ pre
      intro db2
      cases hst : truthyInt stc with
      | false =>
        rw [@insertItems_cons_nosub ⟨some p, some 0, stc, nt⟩ db.nextSaleId rest db2 hst,
          @insertItems_cons_nosub ⟨some p, none, stc, nt⟩ db.nextSaleId rest db2 hst]
      | true =>
        rw [@insertItems_cons_noqty ⟨some p, some 0, stc, nt⟩ db.nextSaleId rest db2
            hst hprod rfl,
          @insertItems_cons_noqty ⟨some p, none, stc, nt⟩ db.nextSaleId rest db2
            hst hprod rfl]
    · intro huid
      exact create_sale_stuck db cid uid _
        ⟨⟨some p, some 0, stc, nt⟩,
          List.mem_append_right _ (List.mem_cons_self _ _),
          Or.inr ⟨hprod, rfl⟩⟩ huid

/-- Closed instance of `zero_treated_as_absent` at concrete requests. -/
theorem zero_treated_as_absent_witness :
    (create_sale demoDB (some ⟨some 0, some [⟨none, none, some 100, none⟩]⟩) (some 3) =
        create_sale demoDB (some ⟨none, some [⟨none, none, some 100, none⟩]⟩) (some 3) ∧
      (create_sale demoDB (some ⟨some 0, some [⟨none, none, some 100, none⟩]⟩)
        (some 3)).1.status = 400) ∧
    (create_sale demoDB (some ⟨some 7, some ([] ++ ⟨none, none, some 0, none⟩ :: [])⟩)
          (some 3) =
        create_sale demoDB (some ⟨some 7, some ([] ++ ⟨none, none, none, none⟩ :: [])⟩)
          (some 3) ∧
      (truthyInt (some 3) = true →
        (create_sale demoDB (some ⟨some 7, some ([] ++ ⟨none, none, some 0, none⟩ :: [])⟩)
          (some 3)).1.status = 400)) ∧
    (create_sale demoDB
          (some ⟨some 7, some ([] ++ ⟨some 5, some 0, some 200, none⟩ :: [])⟩) (some 3) =
        create_sale demoDB
          (some ⟨some 7, some ([] ++ ⟨some 5, none, some 200, none⟩ :: [])⟩) (some 3) ∧
      (truthyInt (some 3) = true →
        (create_sale demoDB
          (some ⟨some 7, some ([] ++ ⟨some 5, some 0, some 200, none⟩ :: [])⟩)
          (some 3)).1.status = 400)) :=
  ⟨zero_treated_as_absent.1 demoDB (some [⟨none, none, some 100, none⟩]) (some 3),
   zero_treated_as_absent.2.1 demoDB (some 7) (some 3) [] [] none none none,
   zero_treated_as_absent.2.2 demoDB (some 7) (some 3) [] [] 5 (by decide) (some 200) none⟩

end SalesSys
